import Mathlib

/-!
Verification of the india-estuaries-api response-shaping logic.

The repository exposes read-only HTTP endpoints over a geospatial survey
database.  Each endpoint runs one fixed SQL query and reshapes the fetched
rows into a JSON structure.  We embed the row types, the SQL result-set
semantics that the endpoints depend on, and the Python reshaping code as
executable Lean definitions, and prove the response-shaping contracts.

Numeric database values are modelled as rationals; nullable SQL columns
become Option; JSON values are a small inductive mirroring what the
endpoints serialize.  Python dictionaries keep literal insertion order, so
Json.obj carries an ordered association list.
-/

/-- JSON values, as produced by the endpoints.  Object fields keep the
insertion order of the Python dict literals that build them. -/
inductive Json where
  | null : Json
  | str : String → Json
  | num : ℚ → Json
  | arr : List Json → Json
  | obj : List (String × Json) → Json

/-- Serialize a nullable numeric column: None becomes JSON null. -/
def optNum : Option ℚ → Json
  | some q => Json.num q
  | none => Json.null

/-- Serialize a nullable string column: None becomes JSON null. -/
def optStr : Option String → Json
  | some s => Json.str s
  | none => Json.null

/-- Serialize a nullable integer column: None becomes JSON null. -/
def optInt : Option Int → Json
  | some i => Json.num (i : ℚ)
  | none => Json.null

/-- Field lookup in a JSON object (first match, as in a Python dict). -/
def objGet : Json → String → Option Json
  | Json.obj fs, k => (fs.find? (fun p => p.1 == k)).map (fun p => p.2)
  | _, _ => none

/-- The keys of a JSON object, in order. -/
def objKeys : Json → List String
  | Json.obj fs => fs.map (fun p => p.1)
  | _ => []

/-- Whether a JSON object has a field with the given key. -/
def objHasKey (j : Json) (k : String) : Bool :=
  (objGet j k).isSome

/-- Python truthiness of a deserialized JSON value, as tested by the
statement `if not result` in the geojson endpoint: null/None is falsy, an
empty string, a zero number, an empty list and an empty dict are falsy,
everything else is truthy. -/
def pyTruthy : Json → Bool
  | Json.null => false
  | Json.str s => !s.isEmpty
  | Json.num q => !(q == 0)
  | Json.arr xs => !xs.isEmpty
  | Json.obj fs => !fs.isEmpty

/-- A row of the survey.survey_points table.  The ORM model maps point_id,
estuary_id, station_code, location, latitude, longitude and survey_date;
the raw SQL additionally reads estuary_name and geom, so the physical row
carries them as well. -/
structure SurveyPointsRow where
  point_id : Int
  estuary_id : Option Int
  station_code : Option String
  location : Option String
  latitude : Option ℚ
  longitude : Option ℚ
  survey_date : Option String
  estuary_name : Option String
  geom : Option (ℚ × ℚ)
deriving DecidableEq

/-- ST_AsGeoJSON of a point geometry, cast to jsonb; a SQL NULL geometry
yields JSON null. -/
def geomJson : Option (ℚ × ℚ) → Json
  | some xy => Json.obj [("type", Json.str "Point"),
      ("coordinates", Json.arr [Json.num xy.1, Json.num xy.2])]
  | none => Json.null

/-- to_jsonb(survey_points) minus the geom key: every column of the row
except the geometry. -/
def surveyPointProps (r : SurveyPointsRow) : Json :=
  Json.obj [("point_id", Json.num (r.point_id : ℚ)),
    ("estuary_id", optInt r.estuary_id),
    ("station_code", optStr r.station_code),
    ("location", optStr r.location),
    ("latitude", optNum r.latitude),
    ("longitude", optNum r.longitude),
    ("survey_date", optStr r.survey_date),
    ("estuary_name", optStr r.estuary_name)]

/-- One Feature of the GeoJSON export. -/
def featureJson (r : SurveyPointsRow) : Json :=
  Json.obj [("type", Json.str "Feature"),
    ("geometry", geomJson r.geom),
    ("properties", surveyPointProps r)]

/-- The scalar produced by the SQL of the geojson endpoint.  PostgreSQL
jsonb_build_object always returns an object; the nested jsonb_agg over
zero input rows is SQL NULL, so on an empty table the features field is
JSON null rather than an empty array. -/
def geojsonSqlResult (table : List SurveyPointsRow) : Json :=
  Json.obj [("type", Json.str "FeatureCollection"),
    ("features", if table.isEmpty then Json.null
      else Json.arr (table.map featureJson))]

/-- Endpoint GET /survey/points/geojson (get_points_geojson in main.py):
run the aggregation, and if the deserialized result is falsy return a
hand-built empty FeatureCollection, otherwise return the result as is. -/
def get_points_geojson (table : List SurveyPointsRow) : Json :=
  let result := geojsonSqlResult table
  if !pyTruthy result then
    Json.obj [("type", Json.str "FeatureCollection"),
      ("features", Json.arr [])]
  else
    result

/-- Serialization of one survey point through response_model
SurveyPointBase: the pydantic schema declares exactly estuary_id,
station_code, location, latitude, longitude and survey_date, so only
those six fields appear in the response; point_id is declared only on the
SurveyPoint subclass, which is not the response model. -/
def surveyPointBaseJson (r : SurveyPointsRow) : Json :=
  Json.obj [("estuary_id", optInt r.estuary_id),
    ("station_code", optStr r.station_code),
    ("location", optStr r.location),
    ("latitude", optNum r.latitude),
    ("longitude", optNum r.longitude),
    ("survey_date", optStr r.survey_date)]

/-- Endpoint GET /survey-points (read_points in main.py): select every row
of survey_points, in table order, and serialize the list through
response_model list of SurveyPointBase. -/
def read_points (table : List SurveyPointsRow) : Json :=
  Json.arr (table.map surveyPointBaseJson)

/-- A row of the survey.plastic_abundance table (the columns the
abundance query reads). -/
structure PlasticAbundanceRow where
  station_code : Option String
  water_abundance : Option ℚ
  sediment_abundance : Option ℚ
deriving DecidableEq

/-- A fetched row of the abundance query in get_estuary_data. -/
structure AbundanceRow where
  point_id : Int
  station_code : Option String
  latitude : Option ℚ
  longitude : Option ℚ
  water_abundance : Option ℚ
  sediment_abundance : Option ℚ
deriving DecidableEq

/-- SQL equality of two nullable join keys: comparison with NULL is
unknown, so a NULL on either side never matches. -/
def sqlEqKey : Option String → Option String → Bool
  | some a, some b => a == b
  | _, _ => false

/-- SQL equality of a nullable column against a non-null query
parameter. -/
def sqlEqParam : Option String → String → Bool
  | some a, b => a == b
  | none, _ => false

/-- The abundance query: survey_points rows whose estuary_name equals the
parameter, left joined with plastic_abundance on station_code.  A left
row with no match yields one output row with NULL measure columns;
otherwise one output row per matching right row. -/
def abundanceQuery (estuary_name : String) (sps : List SurveyPointsRow)
    (pas : List PlasticAbundanceRow) : List AbundanceRow :=
  (sps.filter (fun sp => sqlEqParam sp.estuary_name estuary_name)).flatMap
    (fun sp =>
      let hits := pas.filter (fun pa => sqlEqKey sp.station_code pa.station_code)
      if hits.isEmpty then
        [⟨sp.point_id, sp.station_code, sp.latitude, sp.longitude, none, none⟩]
      else
        hits.map (fun pa =>
          ⟨sp.point_id, sp.station_code, sp.latitude, sp.longitude,
            pa.water_abundance, pa.sediment_abundance⟩))

/-- One element of the points list of the abundance response. -/
def abundancePointJson (r : AbundanceRow) : Json :=
  Json.obj [("point_id", Json.num (r.point_id : ℚ)),
    ("station_code", optStr r.station_code),
    ("latitude", optNum r.latitude),
    ("longitude", optNum r.longitude),
    ("water_abundance", optNum r.water_abundance),
    ("sediment_abundance", optNum r.sediment_abundance)]

/-- Endpoint GET /estuaries/estuary_name (get_estuary_data in main.py),
applied to the fetched rows: an empty fetch returns the error sentinel;
otherwise the averages are taken over the non-None values only (the list
comprehensions filter None out), each average is None when its filtered
list is empty, and the raw rows are echoed as points. -/
def get_estuary_data (rows : List AbundanceRow) : Json :=
  if rows.isEmpty then Json.obj [("error", Json.str "No points found")]
  else
    let water_values := rows.filterMap (fun r => r.water_abundance)
    let sediment_values := rows.filterMap (fun r => r.sediment_abundance)
    Json.obj [
      ("average_water_abundance",
        if water_values.isEmpty then Json.null
        else Json.num (water_values.sum / (water_values.length : ℚ))),
      ("average_sediment_abundance",
        if sediment_values.isEmpty then Json.null
        else Json.num (sediment_values.sum / (sediment_values.length : ℚ))),
      ("points", Json.arr (rows.map abundancePointJson))]

/-- The abundance endpoint, from the tables: run the query, then shape
the response. -/
def estuary_data_endpoint (estuary_name : String)
    (sps : List SurveyPointsRow) (pas : List PlasticAbundanceRow) : Json :=
  get_estuary_data (abundanceQuery estuary_name sps pas)

/-- A row of survey.plastic_shape_water or survey.plastic_shape_sediment
(the columns the shape query reads). -/
structure ShapeMeasRow where
  station_code : Option String
  fiber : Option ℚ
  fragment : Option ℚ
  film : Option ℚ
  foam : Option ℚ
  pellet : Option ℚ
deriving DecidableEq

/-- A fetched row of the shape query in get_estuary_shape. -/
structure ShapeRow where
  station_code : Option String
  latitude : Option ℚ
  longitude : Option ℚ
  water_fiber : Option ℚ
  water_fragment : Option ℚ
  water_film : Option ℚ
  water_foam : Option ℚ
  water_pellet : Option ℚ
  sediment_fiber : Option ℚ
  sediment_fragment : Option ℚ
  sediment_film : Option ℚ
  sediment_foam : Option ℚ
  sediment_pellet : Option ℚ
deriving DecidableEq

/-- The shape query: survey_points rows of the estuary, inner joined with
both shape tables on station_code (only stations present in all three
tables contribute). -/
def shapeQuery (estuary : String) (sps : List SurveyPointsRow)
    (ws ss : List ShapeMeasRow) : List ShapeRow :=
  (sps.filter (fun sp => sqlEqParam sp.estuary_name estuary)).flatMap fun sp =>
    (ws.filter (fun w => sqlEqKey sp.station_code w.station_code)).flatMap fun w =>
      (ss.filter (fun s => sqlEqKey sp.station_code s.station_code)).map fun s =>
        ⟨sp.station_code, sp.latitude, sp.longitude,
          w.fiber, w.fragment, w.film, w.foam, w.pellet,
          s.fiber, s.fragment, s.film, s.foam, s.pellet⟩

/-- Python addition of the running sum and a fetched value, as in
water_sum[k] += r[...]: adding None raises TypeError, modelled as none;
the exception aborts the whole request. -/
def addOpt : Option ℚ → Option ℚ → Option ℚ
  | some a, some b => some (a + b)
  | _, _ => none

/-- The value of one per-category running sum after the loop over the
rows: it starts at 0 and adds the category value of each row in turn. -/
def sumOpt (l : List (Option ℚ)) : Option ℚ := l.foldl addOpt (some 0)

/-- Python round(x) on an exact value: round half to even. -/
def pyRoundInt (q : ℚ) : Int :=
  let f : Int := ⌊q⌋
  let r : ℚ := q - (f : ℚ)
  if r < 1 / 2 then f
  else if 1 / 2 < r then f + 1
  else if f % 2 = 0 then f else f + 1

/-- Python round(x, 2): round to two decimal places, half to even. -/
def pyRound2 (q : ℚ) : ℚ := (pyRoundInt (q * 100) : ℚ) / 100

/-- One element of the points list of the shape response; the fetched
category values are serialized as is (None becomes JSON null). -/
def shapePointJson (r : ShapeRow) : Json :=
  Json.obj [("station_code", optStr r.station_code),
    ("latitude", optNum r.latitude),
    ("longitude", optNum r.longitude),
    ("water", Json.obj [("fiber", optNum r.water_fiber),
      ("fragment", optNum r.water_fragment),
      ("film", optNum r.water_film),
      ("foam", optNum r.water_foam),
      ("pellet", optNum r.water_pellet)]),
    ("sediment", Json.obj [("fiber", optNum r.sediment_fiber),
      ("fragment", optNum r.sediment_fragment),
      ("film", optNum r.sediment_film),
      ("foam", optNum r.sediment_foam),
      ("pellet", optNum r.sediment_pellet)])]

/-- Endpoint GET /estuaries/estuary/shape (get_estuary_shape in main.py),
applied to the fetched rows.  Empty fetch: the fixed empty response.
Otherwise the loop accumulates every category value into the running sums
(a None value raises TypeError, so the request produces no JSON response:
result none) and each average is the sum divided by the number of fetched
rows, rounded to two decimal places. -/
def get_estuary_shape (estuary : String) (rows : List ShapeRow) :
    Option Json :=
  if rows.isEmpty then
    some (Json.obj [("estuary", Json.str estuary),
      ("points", Json.arr []), ("average", Json.obj [])])
  else do
    let wfi ← sumOpt (rows.map (fun r => r.water_fiber))
    let wfr ← sumOpt (rows.map (fun r => r.water_fragment))
    let wfl ← sumOpt (rows.map (fun r => r.water_film))
    let wfo ← sumOpt (rows.map (fun r => r.water_foam))
    let wpe ← sumOpt (rows.map (fun r => r.water_pellet))
    let sfi ← sumOpt (rows.map (fun r => r.sediment_fiber))
    let sfr ← sumOpt (rows.map (fun r => r.sediment_fragment))
    let sfl ← sumOpt (rows.map (fun r => r.sediment_film))
    let sfo ← sumOpt (rows.map (fun r => r.sediment_foam))
    let spe ← sumOpt (rows.map (fun r => r.sediment_pellet))
    let n : ℚ := (rows.length : ℚ)
    some (Json.obj [("estuary", Json.str estuary),
      ("points", Json.arr (rows.map shapePointJson)),
      ("average", Json.obj [
        ("water", Json.obj [("fiber", Json.num (pyRound2 (wfi / n))),
          ("fragment", Json.num (pyRound2 (wfr / n))),
          ("film", Json.num (pyRound2 (wfl / n))),
          ("foam", Json.num (pyRound2 (wfo / n))),
          ("pellet", Json.num (pyRound2 (wpe / n)))]),
        ("sediment", Json.obj [("fiber", Json.num (pyRound2 (sfi / n))),
          ("fragment", Json.num (pyRound2 (sfr / n))),
          ("film", Json.num (pyRound2 (sfl / n))),
          ("foam", Json.num (pyRound2 (sfo / n))),
          ("pellet", Json.num (pyRound2 (spe / n)))])])])

/-- The shape endpoint, from the tables. -/
def estuary_shape_endpoint (estuary : String) (sps : List SurveyPointsRow)
    (ws ss : List ShapeMeasRow) : Option Json :=
  get_estuary_shape estuary (shapeQuery estuary sps ws ss)

/-- Whether some shape category value of the fetched row is NULL. -/
def hasNullShape (r : ShapeRow) : Bool :=
  r.water_fiber.isNone || r.water_fragment.isNone || r.water_film.isNone ||
  r.water_foam.isNone || r.water_pellet.isNone ||
  r.sediment_fiber.isNone || r.sediment_fragment.isNone ||
  r.sediment_film.isNone || r.sediment_foam.isNone ||
  r.sediment_pellet.isNone

/-- A row of survey.plastic_color_water or survey.plastic_color_sediment
(the columns the color query reads). -/
structure ColorMeasRow where
  station_code : Option String
  black : Option ℚ
  red : Option ℚ
  blue : Option ℚ
  yellow : Option ℚ
  grey : Option ℚ
  white : Option ℚ
  green : Option ℚ
  orange : Option ℚ
  brown : Option ℚ
  transparent : Option ℚ
deriving DecidableEq

/-- A fetched row of the color query in get_estuary_color, with the
w_ and s_ column aliases of the SQL. -/
structure ColorRow where
  station_code : Option String
  latitude : Option ℚ
  longitude : Option ℚ
  w_black : Option ℚ
  w_red : Option ℚ
  w_blue : Option ℚ
  w_yellow : Option ℚ
  w_grey : Option ℚ
  w_white : Option ℚ
  w_green : Option ℚ
  w_orange : Option ℚ
  w_brown : Option ℚ
  w_transparent : Option ℚ
  s_black : Option ℚ
  s_red : Option ℚ
  s_blue : Option ℚ
  s_yellow : Option ℚ
  s_grey : Option ℚ
  s_white : Option ℚ
  s_green : Option ℚ
  s_orange : Option ℚ
  s_brown : Option ℚ
  s_transparent : Option ℚ
deriving DecidableEq

/-- The match list of one left join step: no matching right row yields a
single NULL row (none); otherwise one entry per matching right row. -/
def leftJoinHits {α : Type} (key : Option String) (keyOf : α → Option String)
    (l : List α) : List (Option α) :=
  let hits := l.filter (fun c => sqlEqKey key (keyOf c))
  if hits.isEmpty then [none] else hits.map some

/-- ORDER BY station_code ASC: PostgreSQL sorts NULLs last by default. -/
def stationLe : Option String → Option String → Bool
  | _, none => true
  | none, some _ => false
  | some a, some b => decide (a ≤ b)

/-- The color query: survey_points rows of the estuary, left joined with
the water-color and the sediment-color table on station_code, ordered by
station_code ascending. -/
def colorQuery (estuary : String) (sps : List SurveyPointsRow)
    (cws css : List ColorMeasRow) : List ColorRow :=
  let joined :=
    (sps.filter (fun sp => sqlEqParam sp.estuary_name estuary)).flatMap fun sp =>
      (leftJoinHits sp.station_code (fun c => c.station_code) cws).flatMap fun cw =>
        (leftJoinHits sp.station_code (fun c => c.station_code) css).map fun cs =>
          { station_code := sp.station_code
            latitude := sp.latitude
            longitude := sp.longitude
            w_black := cw.bind (fun c => c.black)
            w_red := cw.bind (fun c => c.red)
            w_blue := cw.bind (fun c => c.blue)
            w_yellow := cw.bind (fun c => c.yellow)
            w_grey := cw.bind (fun c => c.grey)
            w_white := cw.bind (fun c => c.white)
            w_green := cw.bind (fun c => c.green)
            w_orange := cw.bind (fun c => c.orange)
            w_brown := cw.bind (fun c => c.brown)
            w_transparent := cw.bind (fun c => c.transparent)
            s_black := cs.bind (fun c => c.black)
            s_red := cs.bind (fun c => c.red)
            s_blue := cs.bind (fun c => c.blue)
            s_yellow := cs.bind (fun c => c.yellow)
            s_grey := cs.bind (fun c => c.grey)
            s_white := cs.bind (fun c => c.white)
            s_green := cs.bind (fun c => c.green)
            s_orange := cs.bind (fun c => c.orange)
            s_brown := cs.bind (fun c => c.brown)
            s_transparent := cs.bind (fun c => c.transparent) : ColorRow }
  joined.mergeSort (fun a b => stationLe a.station_code b.station_code)

/-- One element of the points list of the color response; every fetched
color value is serialized unchanged, so a NULL stays JSON null. -/
def colorPointJson (r : ColorRow) : Json :=
  Json.obj [("station_code", optStr r.station_code),
    ("latitude", optNum r.latitude),
    ("longitude", optNum r.longitude),
    ("water", Json.obj [("black", optNum r.w_black),
      ("red", optNum r.w_red),
      ("blue", optNum r.w_blue),
      ("yellow", optNum r.w_yellow),
      ("grey", optNum r.w_grey),
      ("white", optNum r.w_white),
      ("green", optNum r.w_green),
      ("orange", optNum r.w_orange),
      ("brown", optNum r.w_brown),
      ("transparent", optNum r.w_transparent)]),
    ("sediment", Json.obj [("black", optNum r.s_black),
      ("red", optNum r.s_red),
      ("blue", optNum r.s_blue),
      ("yellow", optNum r.s_yellow),
      ("grey", optNum r.s_grey),
      ("white", optNum r.s_white),
      ("green", optNum r.s_green),
      ("orange", optNum r.s_orange),
      ("brown", optNum r.s_brown),
      ("transparent", optNum r.s_transparent)])]

/-- Endpoint GET /estuaries/estuary/color (get_estuary_color in main.py),
applied to the fetched rows: no empty-result branch and no average; the
loop serializes every row as is. -/
def get_estuary_color (estuary : String) (rows : List ColorRow) : Json :=
  Json.obj [("estuary", Json.str estuary),
    ("points", Json.arr (rows.map colorPointJson))]

/-- The color endpoint, from the tables. -/
def estuary_color_endpoint (estuary : String) (sps : List SurveyPointsRow)
    (cws css : List ColorMeasRow) : Json :=
  get_estuary_color estuary (colorQuery estuary sps cws css)

/-- A row of survey.plastic_size_water or survey.plastic_size_sediment
(the columns the size query reads). -/
structure SizeMeasRow where
  station_code : Option String
  lt_1mm : Option ℚ
  mm_1_to_2_5 : Option ℚ
  mm_2_5_to_5 : Option ℚ
deriving DecidableEq

/-- A fetched row of the size query in get_size_distribution, with the
w_ and s_ column aliases of the SQL. -/
structure SizeRow where
  station_code : Option String
  latitude : Option ℚ
  longitude : Option ℚ
  w_lt_1mm : Option ℚ
  w_mm_1_to_2_5 : Option ℚ
  w_mm_2_5_to_5 : Option ℚ
  s_lt_1mm : Option ℚ
  s_mm_1_to_2_5 : Option ℚ
  s_mm_2_5_to_5 : Option ℚ
deriving DecidableEq

/-- The size query: survey_points rows of the estuary, left joined with
the water-size and the sediment-size table on station_code, ordered by
station_code ascending. -/
def sizeQuery (estuary : String) (sps : List SurveyPointsRow)
    (sws sss : List SizeMeasRow) : List SizeRow :=
  let joined :=
    (sps.filter (fun sp => sqlEqParam sp.estuary_name estuary)).flatMap fun sp =>
      (leftJoinHits sp.station_code (fun c => c.station_code) sws).flatMap fun sw =>
        (leftJoinHits sp.station_code (fun c => c.station_code) sss).map fun ss =>
          { station_code := sp.station_code
            latitude := sp.latitude
            longitude := sp.longitude
            w_lt_1mm := sw.bind (fun c => c.lt_1mm)
            w_mm_1_to_2_5 := sw.bind (fun c => c.mm_1_to_2_5)
            w_mm_2_5_to_5 := sw.bind (fun c => c.mm_2_5_to_5)
            s_lt_1mm := ss.bind (fun c => c.lt_1mm)
            s_mm_1_to_2_5 := ss.bind (fun c => c.mm_1_to_2_5)
            s_mm_2_5_to_5 := ss.bind (fun c => c.mm_2_5_to_5) : SizeRow }
  joined.mergeSort (fun a b => stationLe a.station_code b.station_code)

/-- Python `x or 0` on a nullable numeric value: None and numeric zero
are falsy and give the literal 0; any other value is returned
unchanged. -/
def pyOr0 : Option ℚ → ℚ
  | some q => if q == 0 then 0 else q
  | none => 0

/-- One element of the points list of the size response: every bucket
value goes through `or 0`, so a NULL becomes the number 0. -/
def sizePointJson (r : SizeRow) : Json :=
  Json.obj [("station_code", optStr r.station_code),
    ("latitude", optNum r.latitude),
    ("longitude", optNum r.longitude),
    ("water", Json.obj [("lt_1mm", Json.num (pyOr0 r.w_lt_1mm)),
      ("mm_1_to_2_5", Json.num (pyOr0 r.w_mm_1_to_2_5)),
      ("mm_2_5_to_5", Json.num (pyOr0 r.w_mm_2_5_to_5))]),
    ("sediment", Json.obj [("lt_1mm", Json.num (pyOr0 r.s_lt_1mm)),
      ("mm_1_to_2_5", Json.num (pyOr0 r.s_mm_1_to_2_5)),
      ("mm_2_5_to_5", Json.num (pyOr0 r.s_mm_2_5_to_5))])]

/-- Endpoint GET /estuaries/estuary/size (get_size_distribution in
main.py), applied to the fetched rows: no empty-result branch and no
average; every bucket value is defaulted to 0 when NULL. -/
def get_size_distribution (estuary : String) (rows : List SizeRow) : Json :=
  Json.obj [("estuary", Json.str estuary),
    ("points", Json.arr (rows.map sizePointJson))]

/-- The size endpoint, from the tables. -/
def size_distribution_endpoint (estuary : String)
    (sps : List SurveyPointsRow) (sws sss : List SizeMeasRow) : Json :=
  get_size_distribution estuary (sizeQuery estuary sps sws sss)

/-- Lookup of a field of a nested dictionary of the response. -/
def objGet2 (j : Json) (k1 k2 : String) : Option Json :=
  match objGet j k1 with
  | some x => objGet x k2
  | none => none

/-- Whether a JSON value is null. -/
def jsonIsNull : Json → Bool
  | Json.null => true
  | _ => false

/-- Whether both nested bucket dictionaries of a size point are free of
JSON null values. -/
def bucketsNonNull (p : Json) : Bool :=
  match objGet p "water", objGet p "sediment" with
  | some (Json.obj ws), some (Json.obj ss) =>
      ws.all (fun kv => !jsonIsNull kv.2) && ss.all (fun kv => !jsonIsNull kv.2)
  | _, _ => false

/-- Modelled from the spec, section 4.4: the shape response whose average
holds, per category and per medium, the arithmetic mean of that category
across all returned points, rounded to 2 decimal places.  Compared with
the code definition get_estuary_shape in the C6 theorem. -/
def shapeResponseSpec (estuary : String) (rows : List ShapeRow) : Json :=
  let n : ℚ := (rows.length : ℚ)
  Json.obj [("estuary", Json.str estuary),
    ("points", Json.arr (rows.map shapePointJson)),
    ("average", Json.obj [
      ("water", Json.obj [
        ("fiber", Json.num (pyRound2
          ((rows.map fun r => (r.water_fiber).getD 0).sum / n))),
        ("fragment", Json.num (pyRound2
          ((rows.map fun r => (r.water_fragment).getD 0).sum / n))),
        ("film", Json.num (pyRound2
          ((rows.map fun r => (r.water_film).getD 0).sum / n))),
        ("foam", Json.num (pyRound2
          ((rows.map fun r => (r.water_foam).getD 0).sum / n))),
        ("pellet", Json.num (pyRound2
          ((rows.map fun r => (r.water_pellet).getD 0).sum / n)))]),
      ("sediment", Json.obj [
        ("fiber", Json.num (pyRound2
          ((rows.map fun r => (r.sediment_fiber).getD 0).sum / n))),
        ("fragment", Json.num (pyRound2
          ((rows.map fun r => (r.sediment_fragment).getD 0).sum / n))),
        ("film", Json.num (pyRound2
          ((rows.map fun r => (r.sediment_film).getD 0).sum / n))),
        ("foam", Json.num (pyRound2
          ((rows.map fun r => (r.sediment_foam).getD 0).sum / n))),
        ("pellet", Json.num (pyRound2
          ((rows.map fun r => (r.sediment_pellet).getD 0).sum / n)))])])]

/-- A concrete survey point used by witnesses and counterexamples. -/
def spRow1 : SurveyPointsRow :=
  { point_id := 1
    estuary_id := some 10
    station_code := some "AST-01"
    location := some "Ashtamudi North"
    latitude := some 9
    longitude := some 76
    survey_date := some "2024-01-15"
    estuary_name := some "Ashtamudi"
    geom := some (76, 9) }

/-- A fetched shape row with every category value present. -/
def shapeRowA : ShapeRow :=
  { station_code := some "AST-01"
    latitude := some 9
    longitude := some 76
    water_fiber := some 2
    water_fragment := some 1
    water_film := some 4
    water_foam := some 0
    water_pellet := some 3
    sediment_fiber := some 5
    sediment_fragment := some 2
    sediment_film := some 1
    sediment_foam := some 1
    sediment_pellet := some 2 }

/-- A fetched shape row whose water fiber value is NULL. -/
def shapeRowNullFiber : ShapeRow :=
  { station_code := some "AST-02"
    latitude := some 9
    longitude := some 76
    water_fiber := none
    water_fragment := some 3
    water_film := some 1
    water_foam := some 1
    water_pellet := some 1
    sediment_fiber := some 1
    sediment_fragment := some 1
    sediment_film := some 1
    sediment_foam := some 1
    sediment_pellet := some 1 }

/-- A fetched shape row whose sediment pellet value is NULL. -/
def shapeRowNullPellet : ShapeRow :=
  { station_code := some "VEM-01"
    latitude := some 9
    longitude := some 76
    water_fiber := some 1
    water_fragment := some 1
    water_film := some 1
    water_foam := some 1
    water_pellet := some 1
    sediment_fiber := some 1
    sediment_fragment := some 1
    sediment_film := some 1
    sediment_foam := some 1
    sediment_pellet := none }

/-- A fetched abundance row with a water value and a NULL sediment
value. -/
def abRow1 : AbundanceRow :=
  { point_id := 1
    station_code := some "AST-01"
    latitude := some 9
    longitude := some 76
    water_abundance := some 4
    sediment_abundance := none }

/-- A fetched abundance row with both measure values NULL (a station with
no abundance record). -/
def abRow2 : AbundanceRow :=
  { point_id := 2
    station_code := some "AST-02"
    latitude := some 9
    longitude := some 76
    water_abundance := none
    sediment_abundance := none }

theorem optionBind_const_none {α β : Type} (x : Option α) :
    (x.bind fun _ => (none : Option β)) = none := by
  cases x <;> rfl

theorem addOpt_none_left (x : Option ℚ) : addOpt none x = none := by
  cases x <;> rfl

theorem addOpt_none_right (a : Option ℚ) : addOpt a none = none := by
  cases a <;> rfl

theorem foldl_addOpt_none (l : List (Option ℚ)) :
    l.foldl addOpt none = none := by
  induction l with
  | nil => rfl
  | cons x xs ih => rw [List.foldl_cons, addOpt_none_left]; exact ih

theorem foldl_addOpt_of_mem_none (l : List (Option ℚ)) (a : Option ℚ)
    (h : none ∈ l) : l.foldl addOpt a = none := by
  induction l generalizing a with
  | nil => cases h
  | cons x xs ih =>
    rcases List.mem_cons.1 h with h1 | h2
    · rw [List.foldl_cons, ← h1, addOpt_none_right, foldl_addOpt_none]
    · rw [List.foldl_cons]; exact ih (addOpt a x) h2

theorem sumOpt_eq_none (l : List (Option ℚ)) (h : none ∈ l) :
    sumOpt l = none :=
  foldl_addOpt_of_mem_none l (some 0) h

theorem foldl_addOpt_all_some (l : List (Option ℚ)) (a : ℚ)
    (h : ∀ x ∈ l, x ≠ none) :
    l.foldl addOpt (some a) = some (a + (l.map (fun o => o.getD 0)).sum) := by
  induction l generalizing a with
  | nil => simp
  | cons x xs ih =>
    rcases x with _ | q
    · exact absurd rfl (h none (List.mem_cons_self _ _))
    · rw [List.foldl_cons]
      show xs.foldl addOpt (some (a + q)) = _
      rw [ih (a + q) (fun y hy => h y (List.mem_cons_of_mem _ hy))]
      simp [add_assoc]

theorem sumOpt_all_some (l : List (Option ℚ)) (h : ∀ x ∈ l, x ≠ none) :
    sumOpt l = some ((l.map (fun o => o.getD 0)).sum) := by
  unfold sumOpt
  rw [foldl_addOpt_all_some l 0 h, zero_add]

theorem sumOpt_map_all_some (f : ShapeRow → Option ℚ) (rows : List ShapeRow)
    (h : ∀ r ∈ rows, f r ≠ none) :
    sumOpt (rows.map f) = some ((rows.map fun r => (f r).getD 0).sum) := by
  rw [sumOpt_all_some]
  · rw [List.map_map]; rfl
  · intro x hx
    rcases List.mem_map.1 hx with ⟨r, hr, hfr⟩
    rw [← hfr]; exact h r hr

theorem hasNullShape_false_fields (r : ShapeRow)
    (h : hasNullShape r = false) :
    r.water_fiber ≠ none ∧ r.water_fragment ≠ none ∧
    r.water_film ≠ none ∧ r.water_foam ≠ none ∧ r.water_pellet ≠ none ∧
    r.sediment_fiber ≠ none ∧ r.sediment_fragment ≠ none ∧
    r.sediment_film ≠ none ∧ r.sediment_foam ≠ none ∧
    r.sediment_pellet ≠ none := by
  simp only [hasNullShape, Bool.or_eq_false_iff,
    Option.isNone_eq_false_iff, Option.isSome_iff_ne_none] at h
  tauto

/-- C1: the claim is refuted by the code (code bug).  On an empty
survey_points table the endpoint returns a FeatureCollection whose
features field is JSON null, not the empty array: the aggregate query
still returns one row holding a jsonb object, the object deserializes to a
non-empty (hence truthy) Python dict, so the empty-result guard never
fires, and jsonb_agg over zero rows left the features field as SQL
null.  The guard shows the documented intent; it is dead code. -/
theorem C1_geojson_empty_table_features_null :
    get_points_geojson [] =
      Json.obj [("type", Json.str "FeatureCollection"),
        ("features", Json.null)] := rfl

/-- C3 counterexample: the claim says every serialized survey point
carries its identity point_id; on a one-row table the response array
holds exactly one object with the six SurveyPointBase attributes and no
point_id field. -/
theorem C3_counterexample :
    read_points [spRow1] =
      Json.arr [Json.obj [("estuary_id", Json.num 10),
        ("station_code", Json.str "AST-01"),
        ("location", Json.str "Ashtamudi North"),
        ("latitude", Json.num 9),
        ("longitude", Json.num 76),
        ("survey_date", Json.str "2024-01-15")]] ∧
    objHasKey (Json.obj [("estuary_id", Json.num 10),
        ("station_code", Json.str "AST-01"),
        ("location", Json.str "Ashtamudi North"),
        ("latitude", Json.num 9),
        ("longitude", Json.num 76),
        ("survey_date", Json.str "2024-01-15")]) "point_id" = false :=
  ⟨rfl, rfl⟩

/-- C3 amended: the /survey-points endpoint returns every row of the
table, in order, with no pagination and no filtering, each serialized
through response_model SurveyPointBase, whose fields are exactly
estuary_id, station_code, location, latitude, longitude and survey_date;
the identity point_id is not part of the serialized record. -/
theorem C3_survey_points_no_point_id (table : List SurveyPointsRow)
    (r : SurveyPointsRow) :
    read_points table = Json.arr (table.map surveyPointBaseJson) ∧
    objKeys (surveyPointBaseJson r) =
      ["estuary_id", "station_code", "location", "latitude", "longitude",
        "survey_date"] ∧
    objHasKey (surveyPointBaseJson r) "point_id" = false :=
  ⟨rfl, rfl, rfl⟩

/-- C5: whenever the abundance query yields zero rows, the endpoint
returns exactly the sentinel object with the single key error mapped to
the string No points found - a 200-status payload, not an HTTP error and
not an empty-list shape. -/
theorem C5_abundance_empty_error (estuary_name : String)
    (sps : List SurveyPointsRow) (pas : List PlasticAbundanceRow)
    (h : abundanceQuery estuary_name sps pas = []) :
    estuary_data_endpoint estuary_name sps pas =
      Json.obj [("error", Json.str "No points found")] := by
  unfold estuary_data_endpoint
  rw [h]
  rfl

/-- C5 witness: a concrete estuary name matching no survey point. -/
theorem C5_witness :
    estuary_data_endpoint "Nowhere" [spRow1] [] =
      Json.obj [("error", Json.str "No points found")] :=
  C5_abundance_empty_error "Nowhere" [spRow1] [] (by decide)

/-- C7: in the size response every bucket value of every returned point
is serialized through `or 0`, so each of the three water and three
sediment bucket values equals the fetched value with NULL defaulted to
the number 0, and no bucket value of a serialized point is JSON null. -/
theorem C7_size_null_buckets_zero (estuary : String) (rows : List SizeRow)
    (r : SizeRow) :
    get_size_distribution estuary rows =
      Json.obj [("estuary", Json.str estuary),
        ("points", Json.arr (rows.map sizePointJson))] ∧
    objGet2 (sizePointJson r) "water" "lt_1mm" =
      some (Json.num (pyOr0 r.w_lt_1mm)) ∧
    objGet2 (sizePointJson r) "water" "mm_1_to_2_5" =
      some (Json.num (pyOr0 r.w_mm_1_to_2_5)) ∧
    objGet2 (sizePointJson r) "water" "mm_2_5_to_5" =
      some (Json.num (pyOr0 r.w_mm_2_5_to_5)) ∧
    objGet2 (sizePointJson r) "sediment" "lt_1mm" =
      some (Json.num (pyOr0 r.s_lt_1mm)) ∧
    objGet2 (sizePointJson r) "sediment" "mm_1_to_2_5" =
      some (Json.num (pyOr0 r.s_mm_1_to_2_5)) ∧
    objGet2 (sizePointJson r) "sediment" "mm_2_5_to_5" =
      some (Json.num (pyOr0 r.s_mm_2_5_to_5)) ∧
    bucketsNonNull (sizePointJson r) = true ∧
    pyOr0 none = 0 :=
  ⟨rfl, rfl, rfl, rfl, rfl, rfl, rfl, rfl, rfl⟩

/-- C8: in the color response every color value of every returned point
is serialized unchanged for all ten categories in both media: the value
of each category equals the fetched value through optNum, and optNum maps
NULL to JSON null and nothing else to JSON null, so a NULL is passed
through as null and never defaulted. -/
theorem C8_color_nulls_passthrough (estuary : String)
    (rows : List ColorRow) (r : ColorRow) (v : Option ℚ) :
    get_estuary_color estuary rows =
      Json.obj [("estuary", Json.str estuary),
        ("points", Json.arr (rows.map colorPointJson))] ∧
    objGet2 (colorPointJson r) "water" "black" = some (optNum r.w_black) ∧
    objGet2 (colorPointJson r) "water" "red" = some (optNum r.w_red) ∧
    objGet2 (colorPointJson r) "water" "blue" = some (optNum r.w_blue) ∧
    objGet2 (colorPointJson r) "water" "yellow" =
      some (optNum r.w_yellow) ∧
    objGet2 (colorPointJson r) "water" "grey" = some (optNum r.w_grey) ∧
    objGet2 (colorPointJson r) "water" "white" = some (optNum r.w_white) ∧
    objGet2 (colorPointJson r) "water" "green" = some (optNum r.w_green) ∧
    objGet2 (colorPointJson r) "water" "orange" =
      some (optNum r.w_orange) ∧
    objGet2 (colorPointJson r) "water" "brown" = some (optNum r.w_brown) ∧
    objGet2 (colorPointJson r) "water" "transparent" =
      some (optNum r.w_transparent) ∧
    objGet2 (colorPointJson r) "sediment" "black" =
      some (optNum r.s_black) ∧
    objGet2 (colorPointJson r) "sediment" "red" = some (optNum r.s_red) ∧
    objGet2 (colorPointJson r) "sediment" "blue" = some (optNum r.s_blue) ∧
    objGet2 (colorPointJson r) "sediment" "yellow" =
      some (optNum r.s_yellow) ∧
    objGet2 (colorPointJson r) "sediment" "grey" = some (optNum r.s_grey) ∧
    objGet2 (colorPointJson r) "sediment" "white" =
      some (optNum r.s_white) ∧
    objGet2 (colorPointJson r) "sediment" "green" =
      some (optNum r.s_green) ∧
    objGet2 (colorPointJson r) "sediment" "orange" =
      some (optNum r.s_orange) ∧
    objGet2 (colorPointJson r) "sediment" "brown" =
      some (optNum r.s_brown) ∧
    objGet2 (colorPointJson r) "sediment" "transparent" =
      some (optNum r.s_transparent) ∧
    (optNum v = Json.null ↔ v = none) := by
  refine ⟨rfl, rfl, rfl, rfl, rfl, rfl, rfl, rfl, rfl, rfl, rfl, rfl, rfl,
    rfl, rfl, rfl, rfl, rfl, rfl, rfl, rfl, ?_⟩
  cases v <;> simp [optNum]

/-- C9: whenever the three-way shape join yields zero rows, the shape
endpoint returns exactly the object with estuary mapped to the given
name, points mapped to the empty array and average mapped to the empty
object. -/
theorem C9_shape_empty_response (estuary : String)
    (sps : List SurveyPointsRow) (ws ss : List ShapeMeasRow)
    (h : shapeQuery estuary sps ws ss = []) :
    estuary_shape_endpoint estuary sps ws ss =
      some (Json.obj [("estuary", Json.str estuary),
        ("points", Json.arr []), ("average", Json.obj [])]) := by
  unfold estuary_shape_endpoint
  rw [h]
  rfl

/-- C9 witness: a concrete estuary name matching no survey point. -/
theorem C9_witness :
    estuary_shape_endpoint "Nowhere" [spRow1] [] [] =
      some (Json.obj [("estuary", Json.str "Nowhere"),
        ("points", Json.arr []), ("average", Json.obj [])]) :=
  C9_shape_empty_response "Nowhere" [spRow1] [] [] (by decide)

/-- C10: whenever the color query and the size query yield zero rows,
the color and size endpoints each return exactly the object with estuary
mapped to the given name and points mapped to the empty array: no error
key, no average key. -/
theorem C10_color_size_empty (estuary : String)
    (sps : List SurveyPointsRow) (cws css : List ColorMeasRow)
    (sws sss : List SizeMeasRow)
    (hc : colorQuery estuary sps cws css = [])
    (hs : sizeQuery estuary sps sws sss = []) :
    estuary_color_endpoint estuary sps cws css =
      Json.obj [("estuary", Json.str estuary), ("points", Json.arr [])] ∧
    size_distribution_endpoint estuary sps sws sss =
      Json.obj [("estuary", Json.str estuary), ("points", Json.arr [])] := by
  constructor
  · unfold estuary_color_endpoint
    rw [hc]
    rfl
  · unfold size_distribution_endpoint
    rw [hs]
    rfl

/-- C10 witness: a concrete estuary name matching no survey point, for
both endpoints. -/
theorem C10_witness :
    estuary_color_endpoint "Nowhere" [spRow1] [] [] =
      Json.obj [("estuary", Json.str "Nowhere"), ("points", Json.arr [])] ∧
    size_distribution_endpoint "Nowhere" [spRow1] [] [] =
      Json.obj [("estuary", Json.str "Nowhere"), ("points", Json.arr [])] :=
  C10_color_size_empty "Nowhere" [spRow1] [] [] [] []
    (by simp [colorQuery, sqlEqParam, spRow1])
    (by simp [sizeQuery, sqlEqParam, spRow1])

theorem filterMap_isEmpty_iff_all_none {α : Type} (l : List α)
    (f : α → Option ℚ) :
    (l.filterMap f).isEmpty = true ↔
      l.all (fun x => (f x).isNone) = true := by
  rw [List.isEmpty_iff, List.filterMap_eq_nil_iff, List.all_eq_true]
  simp

theorem avg_ite_eq_null_iff (l : List ℚ) :
    ((if l.isEmpty then Json.null
      else Json.num (l.sum / (l.length : ℚ))) = Json.null) ↔
      l.isEmpty = true := by
  by_cases hc : l.isEmpty = true
  · simp [hc]
  · simp [hc]

/-- C4: confirmed.  For a non-empty abundance result set each average is
computed over the non-null values of its column only (the comprehension
filters NULLs out of numerator and denominator alike), and an average is
JSON null exactly when every value of that column is NULL. -/
theorem C4_abundance_average_nulls (rows : List AbundanceRow)
    (hne : rows ≠ []) :
    objGet (get_estuary_data rows) "average_water_abundance" =
      some (if (rows.filterMap fun r => r.water_abundance).isEmpty
        then Json.null
        else Json.num ((rows.filterMap fun r => r.water_abundance).sum /
          ((rows.filterMap fun r => r.water_abundance).length : ℚ))) ∧
    objGet (get_estuary_data rows) "average_sediment_abundance" =
      some (if (rows.filterMap fun r => r.sediment_abundance).isEmpty
        then Json.null
        else Json.num ((rows.filterMap fun r => r.sediment_abundance).sum /
          ((rows.filterMap fun r => r.sediment_abundance).length : ℚ))) ∧
    (objGet (get_estuary_data rows) "average_water_abundance" =
        some Json.null ↔
      rows.all (fun r => r.water_abundance.isNone) = true) ∧
    (objGet (get_estuary_data rows) "average_sediment_abundance" =
        some Json.null ↔
      rows.all (fun r => r.sediment_abundance.isNone) = true) := by
  have h0 : rows.isEmpty = false := by
    cases rows with
    | nil => exact absurd rfl hne
    | cons a l => rfl
  have hgd : get_estuary_data rows =
      Json.obj [
        ("average_water_abundance",
          if (rows.filterMap fun r => r.water_abundance).isEmpty
          then Json.null
          else Json.num ((rows.filterMap fun r => r.water_abundance).sum /
            ((rows.filterMap fun r => r.water_abundance).length : ℚ))),
        ("average_sediment_abundance",
          if (rows.filterMap fun r => r.sediment_abundance).isEmpty
          then Json.null
          else Json.num ((rows.filterMap fun r => r.sediment_abundance).sum /
            ((rows.filterMap fun r => r.sediment_abundance).length : ℚ))),
        ("points", Json.arr (rows.map abundancePointJson))] := by
    unfold get_estuary_data
    rw [h0]
    rfl
  have h1 : objGet (get_estuary_data rows) "average_water_abundance" =
      some (if (rows.filterMap fun r => r.water_abundance).isEmpty
        then Json.null
        else Json.num ((rows.filterMap fun r => r.water_abundance).sum /
          ((rows.filterMap fun r => r.water_abundance).length : ℚ))) := by
    rw [hgd]
    rfl
  have h2 : objGet (get_estuary_data rows) "average_sediment_abundance" =
      some (if (rows.filterMap fun r => r.sediment_abundance).isEmpty
        then Json.null
        else Json.num ((rows.filterMap fun r => r.sediment_abundance).sum /
          ((rows.filterMap fun r => r.sediment_abundance).length : ℚ))) := by
    rw [hgd]
    rfl
  refine ⟨h1, h2, ?_, ?_⟩
  · rw [h1, Option.some_inj, avg_ite_eq_null_iff,
      filterMap_isEmpty_iff_all_none]
  · rw [h2, Option.some_inj, avg_ite_eq_null_iff,
      filterMap_isEmpty_iff_all_none]

/-- C4 witness: two rows; the water average is the mean of the single
non-null value 4, the sediment average is null because both sediment
values are NULL. -/
theorem C4_witness :
    objGet (get_estuary_data [abRow1, abRow2]) "average_water_abundance" =
      some (Json.num 4) ∧
    objGet (get_estuary_data [abRow1, abRow2])
      "average_sediment_abundance" = some Json.null := by
  have h := C4_abundance_average_nulls [abRow1, abRow2] (by decide)
  refine ⟨?_, ?_⟩
  · rw [h.1]
    norm_num [abRow1, abRow2, List.filterMap]
  · rw [h.2.1]
    norm_num [abRow1, abRow2, List.filterMap]

theorem bind10_none {β : Type}
    {s1 s2 s3 s4 s5 s6 s7 s8 s9 s10 : Option ℚ}
    {f : ℚ → ℚ → ℚ → ℚ → ℚ → ℚ → ℚ → ℚ → ℚ → ℚ → Option β}
    (h : s1 = none ∨ s2 = none ∨ s3 = none ∨ s4 = none ∨ s5 = none ∨
      s6 = none ∨ s7 = none ∨ s8 = none ∨ s9 = none ∨ s10 = none) :
    (s1 >>= fun b1 => s2 >>= fun b2 => s3 >>= fun b3 => s4 >>= fun b4 =>
     s5 >>= fun b5 => s6 >>= fun b6 => s7 >>= fun b7 => s8 >>= fun b8 =>
     s9 >>= fun b9 => s10 >>= fun b10 =>
       f b1 b2 b3 b4 b5 b6 b7 b8 b9 b10) = none := by
  rcases s1 with _ | a1
  · rfl
  rcases s2 with _ | a2
  · rfl
  rcases s3 with _ | a3
  · rfl
  rcases s4 with _ | a4
  · rfl
  rcases s5 with _ | a5
  · rfl
  rcases s6 with _ | a6
  · rfl
  rcases s7 with _ | a7
  · rfl
  rcases s8 with _ | a8
  · rfl
  rcases s9 with _ | a9
  · rfl
  rcases s10 with _ | a10
  · rfl
  rcases h with h | h | h | h | h | h | h | h | h | h <;>
    exact Option.noConfusion h

theorem bind10_some {β : Type}
    {s1 s2 s3 s4 s5 s6 s7 s8 s9 s10 : Option ℚ}
    {a1 a2 a3 a4 a5 a6 a7 a8 a9 a10 : ℚ}
    {f : ℚ → ℚ → ℚ → ℚ → ℚ → ℚ → ℚ → ℚ → ℚ → ℚ → Option β}
    (h1 : s1 = some a1) (h2 : s2 = some a2) (h3 : s3 = some a3)
    (h4 : s4 = some a4) (h5 : s5 = some a5) (h6 : s6 = some a6)
    (h7 : s7 = some a7) (h8 : s8 = some a8) (h9 : s9 = some a9)
    (h10 : s10 = some a10) :
    (s1 >>= fun b1 => s2 >>= fun b2 => s3 >>= fun b3 => s4 >>= fun b4 =>
     s5 >>= fun b5 => s6 >>= fun b6 => s7 >>= fun b7 => s8 >>= fun b8 =>
     s9 >>= fun b9 => s10 >>= fun b10 =>
       f b1 b2 b3 b4 b5 b6 b7 b8 b9 b10) =
      f a1 a2 a3 a4 a5 a6 a7 a8 a9 a10 := by
  subst h1; subst h2; subst h3; subst h4; subst h5; subst h6; subst h7
  subst h8; subst h9; subst h10
  rfl

/-- C2 counterexample: the claim says a NULL shape value is excluded from
numerator and denominator of its category average; on a result set whose
second row has a NULL water fiber value the endpoint instead adds the
None to the running sum, raising an unhandled TypeError, and produces no
JSON response at all (so in particular no average excluding the NULL). -/
theorem C2_counterexample :
    get_estuary_shape "Ashtamudi" [shapeRowA, shapeRowNullFiber] = none :=
  rfl

/-- C2 amended: the shape endpoint does not exclude NULL inputs from the
per-category averages; every fetched value is added to a running sum, so
a NULL shape value in any fetched row aborts the computation with an
unhandled TypeError and the endpoint produces no JSON response. -/
theorem C2_shape_null_not_excluded (estuary : String)
    (rows : List ShapeRow) (r : ShapeRow) (hr : r ∈ rows)
    (hnull : hasNullShape r = true) :
    get_estuary_shape estuary rows = none := by
  have h0 : rows.isEmpty = false := by
    cases rows with
    | nil => cases hr
    | cons a l => rfl
  unfold get_estuary_shape
  rw [h0]
  simp only [Bool.false_eq_true, if_false]
  simp only [hasNullShape, Bool.or_eq_true, Option.isNone_iff_eq_none]
    at hnull
  rcases hnull with
    ((((((((h | h) | h) | h) | h) | h) | h) | h) | h) | h
  · have hs : sumOpt (rows.map fun r => r.water_fiber) = none :=
      sumOpt_eq_none _ (List.mem_map.2 ⟨r, hr, h⟩)
    exact bind10_none (Or.inl hs)
  · have hs : sumOpt (rows.map fun r => r.water_fragment) = none :=
      sumOpt_eq_none _ (List.mem_map.2 ⟨r, hr, h⟩)
    exact bind10_none (Or.inr (Or.inl hs))
  · have hs : sumOpt (rows.map fun r => r.water_film) = none :=
      sumOpt_eq_none _ (List.mem_map.2 ⟨r, hr, h⟩)
    exact bind10_none (Or.inr (Or.inr (Or.inl hs)))
  · have hs : sumOpt (rows.map fun r => r.water_foam) = none :=
      sumOpt_eq_none _ (List.mem_map.2 ⟨r, hr, h⟩)
    exact bind10_none (Or.inr (Or.inr (Or.inr (Or.inl hs))))
  · have hs : sumOpt (rows.map fun r => r.water_pellet) = none :=
      sumOpt_eq_none _ (List.mem_map.2 ⟨r, hr, h⟩)
    exact bind10_none (Or.inr (Or.inr (Or.inr (Or.inr (Or.inl hs)))))
  · have hs : sumOpt (rows.map fun r => r.sediment_fiber) = none :=
      sumOpt_eq_none _ (List.mem_map.2 ⟨r, hr, h⟩)
    exact bind10_none (Or.inr (Or.inr (Or.inr (Or.inr (Or.inr (Or.inl hs))))))
  · have hs : sumOpt (rows.map fun r => r.sediment_fragment) = none :=
      sumOpt_eq_none _ (List.mem_map.2 ⟨r, hr, h⟩)
    exact bind10_none (Or.inr (Or.inr (Or.inr (Or.inr (Or.inr (Or.inr (Or.inl hs)))))))
  · have hs : sumOpt (rows.map fun r => r.sediment_film) = none :=
      sumOpt_eq_none _ (List.mem_map.2 ⟨r, hr, h⟩)
    exact bind10_none (Or.inr (Or.inr (Or.inr (Or.inr (Or.inr (Or.inr (Or.inr (Or.inl hs))))))))
  · have hs : sumOpt (rows.map fun r => r.sediment_foam) = none :=
      sumOpt_eq_none _ (List.mem_map.2 ⟨r, hr, h⟩)
    exact bind10_none (Or.inr (Or.inr (Or.inr (Or.inr (Or.inr (Or.inr (Or.inr (Or.inr (Or.inl hs)))))))))
  · have hs : sumOpt (rows.map fun r => r.sediment_pellet) = none :=
      sumOpt_eq_none _ (List.mem_map.2 ⟨r, hr, h⟩)
    exact bind10_none (Or.inr (Or.inr (Or.inr (Or.inr (Or.inr (Or.inr (Or.inr (Or.inr (Or.inr hs)))))))))

/-- C2 witness: a single fetched row with a NULL sediment pellet value
makes the endpoint produce no response. -/
theorem C2_witness :
    get_estuary_shape "Vembanad" [shapeRowNullPellet] = none :=
  C2_shape_null_not_excluded "Vembanad" [shapeRowNullPellet]
    shapeRowNullPellet (List.mem_cons_self _ _) (by decide)

/-- C6 counterexample: the claim quantifies over every non-empty result
set, but on a result set containing a NULL shape value the endpoint
returns no average at all (the sum raises TypeError), so the returned
average cannot map each category to a rounded mean there. -/
theorem C6_counterexample :
    get_estuary_shape "Kali" [shapeRowA, shapeRowNullPellet] = none := rfl

/-- C6 amended: for every non-empty result set in which every shape value
is non-null, the returned average holds, for water and sediment
independently, each of the five categories mapped to the arithmetic mean
of that category over all returned points rounded to 2 decimal places
(shapeResponseSpec states exactly that), and the rounded value is always
an integer multiple of 1/100 regardless of input precision.  A result set
with a NULL shape value instead aborts the request, see the C2
theorems. -/
theorem C6_shape_average_rounded (estuary : String) (rows : List ShapeRow)
    (q : ℚ) (hne : rows ≠ [])
    (hnn : rows.all (fun r => !hasNullShape r) = true) :
    get_estuary_shape estuary rows =
      some (shapeResponseSpec estuary rows) ∧
    ∃ k : ℤ, pyRound2 q = (k : ℚ) / 100 := by
  have h0 : rows.isEmpty = false := by
    cases rows with
    | nil => exact absurd rfl hne
    | cons a l => rfl
  have hall : ∀ r ∈ rows, hasNullShape r = false := by
    intro r hr
    have h := List.all_eq_true.1 hnn r hr
    simpa using h
  have hf : ∀ r ∈ rows, _ := fun r hr =>
    hasNullShape_false_fields r (hall r hr)
  have e1 := sumOpt_map_all_some (fun r => r.water_fiber) rows
    (fun r hr => (hf r hr).1)
  have e2 := sumOpt_map_all_some (fun r => r.water_fragment) rows
    (fun r hr => (hf r hr).2.1)
  have e3 := sumOpt_map_all_some (fun r => r.water_film) rows
    (fun r hr => (hf r hr).2.2.1)
  have e4 := sumOpt_map_all_some (fun r => r.water_foam) rows
    (fun r hr => (hf r hr).2.2.2.1)
  have e5 := sumOpt_map_all_some (fun r => r.water_pellet) rows
    (fun r hr => (hf r hr).2.2.2.2.1)
  have e6 := sumOpt_map_all_some (fun r => r.sediment_fiber) rows
    (fun r hr => (hf r hr).2.2.2.2.2.1)
  have e7 := sumOpt_map_all_some (fun r => r.sediment_fragment) rows
    (fun r hr => (hf r hr).2.2.2.2.2.2.1)
  have e8 := sumOpt_map_all_some (fun r => r.sediment_film) rows
    (fun r hr => (hf r hr).2.2.2.2.2.2.2.1)
  have e9 := sumOpt_map_all_some (fun r => r.sediment_foam) rows
    (fun r hr => (hf r hr).2.2.2.2.2.2.2.2.1)
  have e10 := sumOpt_map_all_some (fun r => r.sediment_pellet) rows
    (fun r hr => (hf r hr).2.2.2.2.2.2.2.2.2)
  constructor
  · unfold get_estuary_shape
    rw [h0]
    simp only [Bool.false_eq_true, if_false]
    exact (bind10_some e1 e2 e3 e4 e5 e6 e7 e8 e9 e10).trans rfl
  · exact ⟨pyRoundInt (q * 100), rfl⟩

/-- C6 witness: one fetched row with every shape value present. -/
theorem C6_witness :
    get_estuary_shape "Ashtamudi" [shapeRowA] =
      some (shapeResponseSpec "Ashtamudi" [shapeRowA]) ∧
    ∃ k : ℤ, pyRound2 (1 / 3) = (k : ℚ) / 100 :=
  C6_shape_average_rounded "Ashtamudi" [shapeRowA] (1 / 3) (by decide)
    (by decide)
